import Mathlib

/-!
# CodeVerseAI — verification of the credential / password-reset / streak slice

Shallow embedding of the authentication and password-reset state machine and
the login-streak computation of the CodeVerseAI repository
(`src/db.py`, `src/auth.py`, `src/utils.py`, `src/mail_utils.py`).

Database tables are embedded as Lean lists of typed records, kept in row
(serial-id) insertion order.  Wall-clock instants (`int(time.time())`) and
calendar dates are embedded as `Int`.  The Streamlit session state that the
reset flow keeps (`reset_step`, `reset_email`, `otp_cooldown_until`,
`auth_mode`) is embedded as an explicit `Session` record threaded through the
handlers, and each branch of `auth.reset()` (one per `(step, button)` pair)
becomes a pure function from the database, session and inputs to the updated
database, session and user-visible outcome.  Randomness (`random.randint`)
and the success of SMTP delivery are passed in as explicit parameters.
-/

namespace CodeVerse

/-! ## bcrypt (external library)

`bcrypt` is a third-party library; its source is not part of this repository.

Modelled from the spec: "a salted, adaptive one-way hash function (the bcrypt
family) with a fresh random salt per call; verification re-derives and
compares via the library's compare function".  The digest is modelled as an
injective function of the password and the salt; the stored hash carries the
salt together with the digest (real bcrypt encodes both into one string).
The one-wayness of the digest is irrelevant to the claims and not modelled.
-/

structure BcryptHash where
  salt : Nat
  digest : List Nat
deriving DecidableEq, Repr

/-- Modelled from the spec: the bcrypt digest, an injective placeholder for
the one-way function of (password, salt). -/
def bcryptDigest (password : String) (salt : Nat) : List Nat :=
  password.data.map (fun c => c.toNat + salt)

/-- Modelled from the spec: `bcrypt.hashpw(password, salt)`. -/
def hashpw (password : String) (salt : Nat) : BcryptHash :=
  ⟨salt, bcryptDigest password salt⟩

/-- Modelled from the spec: `bcrypt.checkpw` re-derives the digest from the
candidate password and the stored salt and compares. -/
def checkpw (password : String) (h : BcryptHash) : Bool :=
  bcryptDigest password h.salt == h.digest

/-- `utils.password_hash` (src/utils.py:3-4): hash with a fresh salt.
The fresh random salt drawn by `bcrypt.gensalt()` is passed explicitly. -/
def password_hash (password : String) (salt : Nat) : BcryptHash :=
  hashpw password salt

/-- `db.check_password` (src/db.py:216-217). -/
def check_password (plain_password : String) (hashed_password : BcryptHash) : Bool :=
  checkpw plain_password hashed_password

/-! ## Data model (src/db.py `init_db`) -/

/-- A row of the `users` table (src/db.py:40-47); `password` holds the
bcrypt hash, never the plaintext. -/
structure User where
  id : Nat
  username : String
  email : String
  password : BcryptHash
deriving DecidableEq, Repr

/-- A row of the `password_reset` table (src/db.py:112-118). -/
structure ResetRecord where
  email : String
  otp_code : String
  otp_expiry : Int
deriving DecidableEq, Repr

/-- A row of the `user_logins` table (src/db.py:125-131); the serial `id`
column is dropped, the `UNIQUE(user_id, login_date)` constraint makes the
remaining pair the row's identity. -/
structure LoginEvent where
  user_id : Nat
  login_date : Int
deriving DecidableEq, Repr

/-- The database state relevant to this slice; each list is in row
(serial-id) insertion order. -/
structure DB where
  users : List User
  password_reset : List ResetRecord
deriving DecidableEq, Repr

/-! ## OTP store helpers (src/db.py) -/

/-- `db.save_password_reset_otp` (src/db.py:586-600): first `DELETE FROM
password_reset WHERE email = %s`, then insert the fresh record. -/
def save_password_reset_otp (table : List ResetRecord) (email otp_code : String)
    (otp_expiry : Int) : List ResetRecord :=
  (table.filter (fun r => ! (r.email == email))) ++ [⟨email, otp_code, otp_expiry⟩]

/-- `db.get_password_reset_record` (src/db.py:603-616): `SELECT * ... WHERE
email = %s ORDER BY id DESC LIMIT 1` — the most recently inserted row for the
email, found by scanning the rows newest-first. -/
def get_password_reset_record (table : List ResetRecord) (email : String) :
    Option ResetRecord :=
  table.reverse.find? (fun r => r.email == email)

/-- SQL equality `col = %s` against a Python value that may be `None`:
`NULL` compares unequal to everything. -/
def sqlEq (v : Option String) (s : String) : Bool :=
  match v with
  | none => false
  | some x => x == s

/-- `db.clear_password_reset` (src/db.py:619-624): `DELETE FROM
password_reset WHERE email = %s`; the email is an `Option` because
`auth.reset` reads it from the session, where it may be absent (`None`). -/
def clear_password_reset (table : List ResetRecord) (email : Option String) :
    List ResetRecord :=
  table.filter (fun r => ! sqlEq email r.email)

/-! ## User store helpers (src/db.py) -/

/-- `db.find_user_by_email` (src/db.py:182-188): first row with that email
(the `UNIQUE` constraint on `users.email` makes it the only one). -/
def find_user_by_email (users : List User) (email : String) : Option User :=
  users.find? (fun u => u.email == email)

/-- `db.update_password` (src/db.py:200-213): `UPDATE users SET password
WHERE email = %s`, returning whether any row was updated (`rowcount > 0`).
The fresh salt of the re-hash is passed explicitly; the email argument is an
`Option` because `auth.reset` reads it from the session, where it may be
absent (`None`). -/
def update_password (users : List User) (email : Option String)
    (new_plain_password : String) (salt : Nat) : List User × Bool :=
  (users.map (fun u =>
      if sqlEq email u.email then { u with password := hashpw new_plain_password salt } else u),
   users.any (fun u => sqlEq email u.email))

/-! ## Login / streak helpers (src/db.py) -/

/-- `db.record_login` (src/db.py:423-446): `INSERT ... ON CONFLICT
(user_id, login_date) DO NOTHING` — insert the (user, today) row unless it is
already present. -/
def record_login (table : List LoginEvent) (user_id : Nat) (today : Int) :
    List LoginEvent :=
  if (⟨user_id, today⟩ : LoginEvent) ∈ table then table
  else table ++ [⟨user_id, today⟩]

/-- The `while current_day in dates_set` loop of `db.get_current_streak`
(src/db.py:478-480), with explicit fuel.  The days counted are distinct
members of the set, so `dates_set.card` steps of fuel are enough: the loop
can never count more than the whole set. -/
def streak_walk (dates_set : Finset Int) : Nat → Int → Nat
  | 0, _ => 0
  | fuel + 1, current_day =>
    if current_day ∈ dates_set then streak_walk dates_set fuel (current_day - 1) + 1
    else 0

/-- The set of login dates of one user: the `SELECT login_date FROM
user_logins WHERE user_id = %s` rows of `db.get_current_streak`
(src/db.py:456-472), as a set (`dates_set`); the `UNIQUE(user_id,
login_date)` constraint makes the returned dates distinct. -/
def user_login_dates (table : List LoginEvent) (user_id : Nat) : Finset Int :=
  ((table.filter (fun r => r.user_id == user_id)).map (fun r => r.login_date)).toFinset

/-- `db.get_current_streak` (src/db.py:449-482) on the user's set of login
dates: 0 when there are no rows; otherwise walk backward one day at a time
from `dates[0]`, which is the maximum date since the query orders the rows
by `login_date DESC`. -/
def get_current_streak (dates : Finset Int) : Nat :=
  if h : dates.Nonempty then streak_walk dates dates.card (dates.max' h)
  else 0

/-- `db.get_current_streak` for a user against the `user_logins` table. -/
def current_streak (table : List LoginEvent) (user_id : Nat) : Nat :=
  get_current_streak (user_login_dates table user_id)

/-! ## Mail channel (src/mail_utils.py)

`send_otp_mail` wraps the whole SMTP interaction in
`try: ... except Exception as e: print(...)` (src/mail_utils.py:131-138):
every delivery failure is caught inside the function, printed to the server
log, and the function returns normally.  Consequently it never raises toward
its caller, whatever the delivery outcome. -/

/-- `mail_utils.send_otp_mail` as seen by its caller: `some msg` would be a
raised exception, `none` a normal return.  The delivery outcome `deliveryOk`
(whether SMTP actually succeeded) is an explicit input; the internal
`except` swallows the failure, so the result is `none` whatever the value of
`deliveryOk`. -/
def send_otp_mail (_deliveryOk : Bool) : Option String :=
  none

/-! ## Auth layer (src/auth.py) -/

/-- `auth.generate_otp` (src/auth.py:362-363):
`f"{random.randint(100000, 999999)}"`.  The RNG draw is passed explicitly as
`r`; the result is the decimal string of a number in [100000, 999999]. -/
def generate_otp (r : Nat) : String :=
  toString (100000 + r % 900000)

/-- The value of `st.session_state["reset_step"]` (src/auth.py:613-616). -/
inductive ResetStep where
  | email
  | otp
  | new_password
deriving DecidableEq, Repr

/-- The Streamlit session state used by the reset flow.  A popped / absent
`otp_cooldown_until` is read back through `.get(..., 0)` (src/auth.py:715),
so absence is represented by `0`; popped `reset_email` is `none`; popped
`reset_step` is re-initialised to `email` on the next entry
(src/auth.py:613-614). -/
structure Session where
  auth_mode : String
  reset_step : ResetStep
  reset_email : Option String
  otp_cooldown_until : Int
deriving DecidableEq, Repr

/-- The three-way outcome of the credential check of `auth.login`
(src/auth.py:540-557). -/
inductive AuthOutcome where
  | noAccount
  | wrongPassword
  | success (id : Nat) (username : String)
deriving DecidableEq, Repr

/-- The credential check of `auth.login` (src/auth.py:540-557): look the user
up by email; "No account found" when absent, "Incorrect password" when
`check_password` fails, otherwise the user's id and username go into the
session. -/
def authenticate (users : List User) (email password : String) : AuthOutcome :=
  match find_user_by_email users email with
  | none => .noAccount
  | some user =>
    if check_password password user.password then .success user.id user.username
    else .wrongPassword

/-- Outcome of the email step of `auth.reset` (src/auth.py:634-664),
after the input-format validations. -/
inductive RequestOutcome where
  | noAccount
  | mailFailed
  | sent
deriving DecidableEq, Repr

/-- The email step of `auth.reset` (src/auth.py:634-664), after the
email-format validations: guard that the email has an account, generate the
OTP, store it with expiry `now + 300`, send the mail, and on a normal return
of `send_otp_mail` record the email in the session, start the 30 s cooldown
and advance to the OTP step.  `r` is the RNG draw, `deliveryOk` the SMTP
delivery outcome. -/
def reset_request (db : DB) (sess : Session) (email : String) (r : Nat)
    (now : Int) (deliveryOk : Bool) : DB × Session × RequestOutcome :=
  match find_user_by_email db.users email with
  | none => (db, sess, .noAccount)
  | some _ =>
    let otp := generate_otp r
    let expiry := now + 300
    let db' := { db with
      password_reset := save_password_reset_otp db.password_reset email otp expiry }
    match send_otp_mail deliveryOk with
    | some _ => (db', sess, .mailFailed)
    | none =>
      (db', { sess with
          reset_email := some email,
          otp_cooldown_until := now + 30,
          reset_step := .otp },
       .sent)

/-- Outcome of the verify branch of the OTP step of `auth.reset`
(src/auth.py:691-710). -/
inductive VerifyOutcome where
  | emptyInput
  | badFormat
  | noRecord
  | expired
  | invalid
  | verified
deriving DecidableEq, Repr

/-- The verify branch of the OTP step of `auth.reset` (src/auth.py:691-710):
reject empty input, then non-6-digit input (`otp_input.isdigit()` on a
nonempty string is "every character is a digit"); fetch the record for the
session email (`.get("reset_email", "")`); no record / past expiry / code
mismatch each produce their error; otherwise move to the new-password step. -/
def reset_verify (db : DB) (sess : Session) (otp_input : String) (now : Int) :
    Session × VerifyOutcome :=
  if otp_input = "" then (sess, .emptyInput)
  else if ¬ (otp_input.data.all Char.isDigit = true ∧ otp_input.length = 6) then
    (sess, .badFormat)
  else
    match get_password_reset_record db.password_reset (sess.reset_email.getD "") with
    | none => (sess, .noRecord)
    | some record =>
      if now > record.otp_expiry then (sess, .expired)
      else if otp_input ≠ record.otp_code then (sess, .invalid)
      else ({ sess with reset_step := .new_password }, .verified)

/-- Outcome of the resend branch of the OTP step of `auth.reset`
(src/auth.py:713-729). -/
inductive ResendOutcome where
  | rateLimited (remaining : Int)
  | mailFailed
  | resent
deriving DecidableEq, Repr

/-- The resend branch of the OTP step of `auth.reset` (src/auth.py:713-729):
before `otp_cooldown_until` warn with the remaining seconds and change
nothing; otherwise store a fresh code with expiry `now + 300` for the
session email, send it, and on a normal return of `send_otp_mail` restart
the 30 s cooldown (staying on the OTP step). -/
def reset_resend (db : DB) (sess : Session) (r : Nat) (now : Int)
    (deliveryOk : Bool) : DB × Session × ResendOutcome :=
  if now < sess.otp_cooldown_until then
    (db, sess, .rateLimited (sess.otp_cooldown_until - now))
  else
    let otp := generate_otp r
    let expiry := now + 300
    let db' := { db with
      password_reset :=
        save_password_reset_otp db.password_reset (sess.reset_email.getD "") otp expiry }
    match send_otp_mail deliveryOk with
    | some _ => (db', sess, .mailFailed)
    | none => (db', { sess with otp_cooldown_until := now + 30 }, .resent)

/-- Outcome of the new-password step of `auth.reset` (src/auth.py:748-787). -/
inductive CommitOutcome where
  | missingFields
  | tooShort
  | noUpper
  | noLower
  | noDigit
  | noSymbol
  | mismatch
  | updateFailed
  | committed
deriving DecidableEq, Repr

/-- The punctuation set of the strength check (src/auth.py:767). -/
def symbolChars : List Char :=
  "!@#$%^&*()_+-=[]\x7b\x7d|;:,.<>/?".data

/-- The new-password step of `auth.reset` (src/auth.py:748-787): field and
strength validations in source order; on a matching, strong password run
`update_password` for the session email; if a row was updated, clear the
reset record, pop the flow's session keys and return to login, otherwise
report failure and change nothing else.  `salt` is the fresh salt drawn by
the re-hash inside `update_password`. -/
def reset_commit (db : DB) (sess : Session) (new_pw confirm_pw : String)
    (salt : Nat) : DB × Session × CommitOutcome :=
  if new_pw = "" ∨ confirm_pw = "" then (db, sess, .missingFields)
  else if new_pw.length < 6 then (db, sess, .tooShort)
  else if ¬ new_pw.data.any Char.isUpper then (db, sess, .noUpper)
  else if ¬ new_pw.data.any Char.isLower then (db, sess, .noLower)
  else if ¬ new_pw.data.any Char.isDigit then (db, sess, .noDigit)
  else if ¬ new_pw.data.any (fun c => c ∈ symbolChars) then (db, sess, .noSymbol)
  else if new_pw ≠ confirm_pw then (db, sess, .mismatch)
  else
    let email := sess.reset_email
    let res := update_password db.users email new_pw salt
    if res.2 then
      let db' : DB :=
        { users := res.1,
          password_reset := clear_password_reset db.password_reset email }
      (db',
       { auth_mode := "login", reset_step := .email, reset_email := none,
         otp_cooldown_until := 0 },
       .committed)
    else ({ db with users := res.1 }, sess, .updateFailed)

/-! ## Concrete sample states (used by the witnesses) -/

def sampleHash : BcryptHash := hashpw "Aa1!xx" 0

def sampleUser : User := ⟨1, "alice", "a@x.com", sampleHash⟩

def sampleDB : DB :=
  ⟨[sampleUser], [⟨"a@x.com", "111111", 900⟩, ⟨"b@x.com", "222222", 900⟩]⟩

def sampleSessEmail : Session := ⟨"reset", .email, none, 0⟩

def sampleSessOtp : Session := ⟨"reset", .otp, some "a@x.com", 1030⟩

/-- Login events on days 1,2,3,5,6,7,8 for user 1 (the example of P6), plus
an unrelated event of user 2. -/
def sampleLogins : List LoginEvent :=
  [⟨1, 1⟩, ⟨1, 2⟩, ⟨1, 3⟩, ⟨1, 5⟩, ⟨1, 6⟩, ⟨1, 7⟩, ⟨1, 8⟩, ⟨2, 100⟩]

/-! ## Helper lemmas -/

theorem char_toNat_inj {a b : Char} (h : a.toNat = b.toNat) : a = b := by
  have := congrArg Char.ofNat h
  rwa [Char.ofNat_toNat, Char.ofNat_toNat] at this

theorem bcryptDigest_inj (salt : Nat) {p q : String}
    (h : bcryptDigest p salt = bcryptDigest q salt) : p = q := by
  have hf : Function.Injective (fun c : Char => c.toNat + salt) := by
    intro a b hab
    exact char_toNat_inj (Nat.add_right_cancel hab)
  have hdata : p.data = q.data := List.map_injective_iff.mpr hf h
  cases p; cases q; exact congrArg String.mk hdata

theorem record_login_nodup {table : List LoginEvent} {u : Nat} {d : Int}
    (h : table.Nodup) : (record_login table u d).Nodup := by
  unfold record_login
  split
  · exact h
  · next hmem =>
    exact List.Nodup.append h (List.nodup_singleton _)
      (by simpa [List.disjoint_singleton] using hmem)

theorem record_login_mem (table : List LoginEvent) (u : Nat) (d : Int) :
    (⟨u, d⟩ : LoginEvent) ∈ record_login table u d := by
  unfold record_login
  split
  · assumption
  · simp

theorem record_login_eq_of_mem {table : List LoginEvent} {u : Nat} {d : Int}
    (h : (⟨u, d⟩ : LoginEvent) ∈ table) : record_login table u d = table := by
  unfold record_login
  exact if_pos h

theorem iterate_record_login_of_mem {u : Nat} {d : Int} :
    ∀ (n : Nat) {t : List LoginEvent}, (⟨u, d⟩ : LoginEvent) ∈ t →
      ((fun t => record_login t u d)^[n]) t = t := by
  intro n
  induction n with
  | zero => intro t _; rfl
  | succ k ih =>
    intro t h
    rw [Function.iterate_succ_apply]
    show ((fun t => record_login t u d)^[k]) (record_login t u d) = t
    rw [record_login_eq_of_mem h]
    exact ih h

/-- The while loop of `get_current_streak` counts exactly the length of the
consecutive run below its starting day, whenever the fuel covers it. -/
theorem streak_walk_eq (s : Finset Int) :
    ∀ (fuel k : Nat) (d : Int),
      (∀ i : Nat, i < k → d - i ∈ s) → d - k ∉ s → k ≤ fuel →
      streak_walk s fuel d = k := by
  intro fuel
  induction fuel with
  | zero =>
    intro k d _ _ hk
    have : k = 0 := Nat.le_zero.mp hk
    subst this
    rfl
  | succ f ih =>
    intro k d hin hout hk
    match k with
    | 0 =>
      have hd : d ∉ s := by simpa using hout
      simp [streak_walk, hd]
    | j + 1 =>
      have hd : d ∈ s := by
        have := hin 0 (Nat.succ_pos j)
        simpa using this
      have hrec : streak_walk s f (d - 1) = j := by
        apply ih
        · intro i hi
          have hcast : d - 1 - (i : Int) = d - ((i + 1 : Nat) : Int) := by
            push_cast
            ring
          rw [hcast]
          exact hin (i + 1) (by omega)
        · have hcast : d - 1 - (j : Int) = d - ((j + 1 : Nat) : Int) := by
            push_cast
            ring
          rw [hcast]
          exact hout
        · omega
      simp only [streak_walk, if_pos hd, hrec]

/-- The days of a consecutive run are distinct members of the date set, so
the run is no longer than the set. -/
theorem run_le_card {s : Finset Int} {d : Int} {k : Nat}
    (h : ∀ i : Nat, i < k → d - i ∈ s) : k ≤ s.card := by
  have hinj : Function.Injective (fun i : Nat => d - (i : Int)) := by
    intro a b hab
    simp only at hab
    omega
  have hsub : (Finset.range k).image (fun i : Nat => d - (i : Int)) ⊆ s := by
    intro x hx
    obtain ⟨i, hi, rfl⟩ := Finset.mem_image.mp hx
    exact h i (Finset.mem_range.mp hi)
  calc k = ((Finset.range k).image (fun i : Nat => d - (i : Int))).card := by
        rw [Finset.card_image_of_injective _ hinj, Finset.card_range]
    _ ≤ s.card := Finset.card_le_card hsub

/-- `get_current_streak` returns the length of the trailing consecutive run
ending at the maximum date. -/
theorem get_current_streak_run {s : Finset Int} (h : s.Nonempty) {m : Int}
    {k : Nat} (hm : s.max' h = m)
    (hin : ∀ i : Nat, i < k → m - i ∈ s) (hout : m - k ∉ s) :
    get_current_streak s = k := by
  have hcard : k ≤ s.card := run_le_card hin
  rw [get_current_streak, dif_pos h, hm]
  exact streak_walk_eq s s.card k m hin hout hcard

theorem get_save_password_reset_otp (table : List ResetRecord)
    (email otp : String) (expiry : Int) :
    get_password_reset_record (save_password_reset_otp table email otp expiry) email
      = some ⟨email, otp, expiry⟩ := by
  simp [get_password_reset_record, save_password_reset_otp, List.find?_cons]

/-! ## Claims -/

/-- C3: after each `save_password_reset_otp` exactly one `password_reset`
record exists for that email, whatever was stored before (the save first
deletes all prior records for the email); hence exactly one active record
remains after any reset request (`reset_request` with an existing account)
or resend (`reset_resend` past the cooldown). -/
theorem C3_one_active_otp_record_per_email :
    (∀ (table : List ResetRecord) (email otp : String) (expiry : Int),
       (save_password_reset_otp table email otp expiry).countP
         (fun r => r.email == email) = 1) ∧
    (∀ (db : DB) (sess : Session) (email : String) (r : Nat) (now : Int)
       (ok : Bool) (u : User), find_user_by_email db.users email = some u →
       (reset_request db sess email r now ok).1.password_reset.countP
         (fun rr => rr.email == email) = 1) ∧
    (∀ (db : DB) (sess : Session) (r : Nat) (now : Int) (ok : Bool),
       sess.otp_cooldown_until ≤ now →
       (reset_resend db sess r now ok).1.password_reset.countP
         (fun rr => rr.email == sess.reset_email.getD "") = 1) := by
  have save1 : ∀ (table : List ResetRecord) (email otp : String) (expiry : Int),
      (save_password_reset_otp table email otp expiry).countP
        (fun r => r.email == email) = 1 := by
    intro table email otp expiry
    simp [save_password_reset_otp, List.countP_append, List.countP_filter,
      List.countP_cons]
  refine ⟨save1, ?_, ?_⟩
  · intro db sess email r now ok u hfind
    simp only [reset_request, hfind, send_otp_mail]
    exact save1 _ _ _ _
  · intro db sess r now ok hcool
    have hnot : ¬ now < sess.otp_cooldown_until := not_lt.mpr hcool
    simp only [reset_resend, hnot, if_false, send_otp_mail]
    exact save1 _ _ _ _

/-- Witness for C3 at concrete states: a table already holding two records
for the email, then a concrete request and a concrete resend. -/
theorem C3_one_active_otp_record_per_email_witness :
    (save_password_reset_otp
        [⟨"a@x.com", "111111", 900⟩, ⟨"a@x.com", "222222", 901⟩]
        "a@x.com" "333333" 1300).countP (fun r => r.email == "a@x.com") = 1 ∧
    (reset_request sampleDB sampleSessEmail "a@x.com" 23456 1000 true).1.password_reset.countP
      (fun rr => rr.email == "a@x.com") = 1 ∧
    (reset_resend sampleDB sampleSessOtp 7 1030 true).1.password_reset.countP
      (fun rr => rr.email == sampleSessOtp.reset_email.getD "") = 1 :=
  ⟨C3_one_active_otp_record_per_email.1 _ "a@x.com" "333333" 1300,
   C3_one_active_otp_record_per_email.2.1 sampleDB sampleSessEmail "a@x.com"
     23456 1000 true sampleUser (by decide),
   C3_one_active_otp_record_per_email.2.2 sampleDB sampleSessOtp 7 1030 true
     (by decide)⟩

/-- C2: every OTP request and every (cooldown-elapsed) resend stores the
record with `otp_expiry = request time + 300`; verifying the stored code one
second before its expiry moves the session to the new-password step with
outcome `verified`, and verifying it at any time strictly after the stored
expiry yields the `expired` error. -/
theorem C2_otp_expiry_window :
    ∀ (db : DB) (sess : Session) (email : String) (r : Nat) (now : Int) (ok : Bool),
      (∀ u : User, find_user_by_email db.users email = some u →
        get_password_reset_record
            (reset_request db sess email r now ok).1.password_reset email
          = some ⟨email, generate_otp r, now + 300⟩) ∧
      (sess.otp_cooldown_until ≤ now →
        get_password_reset_record
            (reset_resend db sess r now ok).1.password_reset (sess.reset_email.getD "")
          = some ⟨sess.reset_email.getD "", generate_otp r, now + 300⟩) ∧
      (∀ record : ResetRecord,
        get_password_reset_record db.password_reset (sess.reset_email.getD "")
          = some record →
        record.otp_code.data.all Char.isDigit = true →
        record.otp_code.length = 6 →
        reset_verify db sess record.otp_code (record.otp_expiry - 1)
          = ({ sess with reset_step := .new_password }, .verified) ∧
        (∀ t : Int, record.otp_expiry < t →
          reset_verify db sess record.otp_code t = (sess, .expired))) := by
  intro db sess email r now ok
  refine ⟨?_, ?_, ?_⟩
  · intro u hfind
    simp only [reset_request, hfind, send_otp_mail]
    exact get_save_password_reset_otp _ _ _ _
  · intro hcool
    have hnot : ¬ now < sess.otp_cooldown_until := not_lt.mpr hcool
    simp only [reset_resend, hnot, if_false, send_otp_mail]
    exact get_save_password_reset_otp _ _ _ _
  · intro record hrec hdig hlen
    have hne : record.otp_code ≠ "" := by
      intro h
      rw [h] at hlen
      simp [String.length] at hlen
    have hfmt : ¬ ¬ (record.otp_code.data.all Char.isDigit = true ∧
        record.otp_code.length = 6) := not_not_intro ⟨hdig, hlen⟩
    constructor
    · simp only [reset_verify, if_neg hne, if_neg hfmt, hrec]
      rw [if_neg (by omega), if_neg (fun h : record.otp_code ≠ record.otp_code => h rfl)]
    · intro t hlt
      simp only [reset_verify, if_neg hne, if_neg hfmt, hrec]
      rw [if_pos hlt]

/-- Witness for C2: concrete request, resend and verifications at one second
before and one second after expiry. -/
theorem C2_otp_expiry_window_witness :
    get_password_reset_record
        (reset_request sampleDB sampleSessEmail "a@x.com" 23456 1000 true).1.password_reset
        "a@x.com" = some ⟨"a@x.com", "123456", 1300⟩ ∧
    get_password_reset_record
        (reset_resend sampleDB sampleSessOtp 7 1030 true).1.password_reset
        "a@x.com" = some ⟨"a@x.com", "100007", 1330⟩ ∧
    reset_verify sampleDB sampleSessOtp "111111" 899
      = (⟨"reset", .new_password, some "a@x.com", 1030⟩, .verified) ∧
    reset_verify sampleDB sampleSessOtp "111111" 901 = (sampleSessOtp, .expired) :=
  ⟨(C2_otp_expiry_window sampleDB sampleSessEmail "a@x.com" 23456 1000 true).1
     sampleUser (by decide),
   (C2_otp_expiry_window sampleDB sampleSessOtp "a@x.com" 7 1030 true).2.1 (by decide),
   ((C2_otp_expiry_window sampleDB sampleSessOtp "a@x.com" 7 1030 true).2.2
     ⟨"a@x.com", "111111", 900⟩ (by decide) (by decide) (by decide)).1,
   ((C2_otp_expiry_window sampleDB sampleSessOtp "a@x.com" 7 1030 true).2.2
     ⟨"a@x.com", "111111", 900⟩ (by decide) (by decide) (by decide)).2 901 (by decide)⟩

/-- C4: a resend strictly before the cooldown deadline fails rate-limited
with at least one remaining second and stores nothing; a resend at or after
the deadline stores a fresh code with a fresh 300 s expiry and restarts the
30 s cooldown. -/
theorem C4_resend_cooldown :
    ∀ (db : DB) (sess : Session) (r : Nat) (now : Int) (ok : Bool),
      (now < sess.otp_cooldown_until →
        reset_resend db sess r now ok
          = (db, sess, .rateLimited (sess.otp_cooldown_until - now)) ∧
        1 ≤ sess.otp_cooldown_until - now) ∧
      (sess.otp_cooldown_until ≤ now →
        reset_resend db sess r now ok
          = ({ db with password_reset := (save_password_reset_otp db.password_reset
                  (sess.reset_email.getD "") (generate_otp r) (now + 300)) },
             { sess with otp_cooldown_until := now + 30 }, .resent)) := by
  intro db sess r now ok
  constructor
  · intro hlt
    constructor
    · simp only [reset_resend, if_pos hlt]
    · omega
  · intro hle
    have hnot : ¬ now < sess.otp_cooldown_until := not_lt.mpr hle
    simp only [reset_resend, if_neg hnot, send_otp_mail]

/-- Witness for C4: a concrete resend 20 s early and one exactly at the
deadline. -/
theorem C4_resend_cooldown_witness :
    (reset_resend sampleDB sampleSessOtp 7 1010 true
        = (sampleDB, sampleSessOtp, .rateLimited (sampleSessOtp.otp_cooldown_until - 1010)) ∧
      1 ≤ sampleSessOtp.otp_cooldown_until - 1010) ∧
    reset_resend sampleDB sampleSessOtp 7 1030 true
      = ({ sampleDB with password_reset := (save_password_reset_otp sampleDB.password_reset
              (sampleSessOtp.reset_email.getD "") (generate_otp 7) (1030 + 300)) },
         { sampleSessOtp with otp_cooldown_until := 1030 + 30 }, .resent) :=
  ⟨(C4_resend_cooldown sampleDB sampleSessOtp 7 1010 true).1 (by decide),
   (C4_resend_cooldown sampleDB sampleSessOtp 7 1030 true).2 (by decide)⟩

/-- C5, code evaluated at the failing input: an OTP request for a registered
email whose SMTP delivery fails (`deliveryOk = false`).  Because
`send_otp_mail` catches every delivery exception internally
(src/mail_utils.py:131-138) and returns normally, the `except` branch of
`auth.reset` (src/auth.py:656-658) that would surface the retryable error
never runs: the outcome is `sent` (the success message, and the flow
advances to the OTP step), not a delivery error; the OTP record is
persisted with the full 300 s expiry. -/
theorem C5_delivery_failure_not_surfaced :
    (reset_request sampleDB sampleSessEmail "a@x.com" 23456 1000 false).2.2
        = .sent ∧
    (reset_request sampleDB sampleSessEmail "a@x.com" 23456 1000 false).2.2
        ≠ .mailFailed ∧
    (reset_request sampleDB sampleSessEmail "a@x.com" 23456 1000 false).2.1.reset_step
        = .otp ∧
    get_password_reset_record
        (reset_request sampleDB sampleSessEmail "a@x.com" 23456 1000 false).1.password_reset
        "a@x.com" = some ⟨"a@x.com", "123456", 1300⟩ := by
  refine ⟨by decide, by decide, by decide, by decide⟩

/-- C6: checking a password against the hash of the same plaintext succeeds,
and against the hash of any different plaintext fails.  (bcrypt is an
external library; the hash is spec-modelled, see `bcryptDigest`.) -/
theorem C6_password_hash_roundtrip :
    ∀ (p q : String) (salt : Nat),
      check_password p (password_hash p salt) = true ∧
      (p ≠ q → check_password p (password_hash q salt) = false) := by
  intro p q salt
  constructor
  · simp [check_password, checkpw, password_hash, hashpw]
  · intro hne
    simp only [check_password, checkpw, password_hash, hashpw]
    rw [beq_eq_false_iff_ne]
    exact fun h => hne (bcryptDigest_inj salt h)

/-- Witness for C6 at a concrete pair of passwords. -/
theorem C6_password_hash_roundtrip_witness :
    check_password "Abc123!@" (password_hash "Abc123!@" 3) = true ∧
    check_password "Abc124!@" (password_hash "Abc123!@" 3) = false :=
  ⟨(C6_password_hash_roundtrip "Abc123!@" "Abc123!@" 3).1,
   (C6_password_hash_roundtrip "Abc124!@" "Abc123!@" 3).2 (by decide)⟩

/-- C7: `record_login` is idempotent: on a table satisfying the
`UNIQUE(user_id, login_date)` constraint, any positive number of same-day
calls leaves exactly one row for (user, day), and the uniqueness constraint
is preserved. -/
theorem C7_record_login_idempotent :
    ∀ (table : List LoginEvent) (u : Nat) (d : Int) (n : Nat), table.Nodup →
      (((fun t => record_login t u d)^[n + 1]) table).count ⟨u, d⟩ = 1 ∧
      (((fun t => record_login t u d)^[n + 1]) table).Nodup := by
  intro table u d n h
  have h1 : ((fun t => record_login t u d)^[n + 1]) table = record_login table u d := by
    rw [Function.iterate_succ_apply]
    exact iterate_record_login_of_mem n (record_login_mem table u d)
  rw [h1]
  exact ⟨List.count_eq_one_of_mem (record_login_nodup h) (record_login_mem table u d),
    record_login_nodup h⟩

/-- Witness for C7: three same-day calls on an initially empty table. -/
theorem C7_record_login_idempotent_witness :
    (((fun t => record_login t 1 5)^[3]) []).count ⟨1, 5⟩ = 1 ∧
    (((fun t => record_login t 1 5)^[3]) []).Nodup :=
  C7_record_login_idempotent [] 1 5 2 (by decide)

/-- C8: on a user table satisfying the `UNIQUE` email constraint, the
credential check yields exactly one of three outcomes: no-account exactly
when no user has the email; wrong-password exactly when a user has the email
but the password check against the stored hash fails; and the user's id and
username exactly when a user has the email and the password check
succeeds. -/
theorem C8_authenticate_trichotomy :
    ∀ (users : List User) (email password : String),
      (users.map User.email).Nodup →
      (authenticate users email password = .noAccount ↔
        ∀ u ∈ users, u.email ≠ email) ∧
      (authenticate users email password = .wrongPassword ↔
        ∃ u ∈ users, u.email = email ∧ check_password password u.password = false) ∧
      (∀ (i : Nat) (name : String),
        authenticate users email password = .success i name ↔
        ∃ u ∈ users, u.email = email ∧ check_password password u.password = true ∧
          u.id = i ∧ u.username = name) := by
  intro users email password hnodup
  have huniq : ∀ u ∈ users, ∀ v ∈ users, u.email = v.email → u = v := by
    intro u hu v hv he
    exact List.inj_on_of_nodup_map hnodup hu hv he
  rcases hfind : find_user_by_email users email with _ | u
  · have hnone : ∀ u ∈ users, u.email ≠ email := by
      intro u hu he
      have := List.find?_eq_none.mp hfind u hu
      simp [he] at this
    refine ⟨?_, ?_, ?_⟩
    · simp only [authenticate, hfind]
      exact ⟨fun _ => hnone, fun _ => trivial⟩
    · simp only [authenticate, hfind]
      constructor
      · intro h; cases h
      · rintro ⟨v, hv, hve, -⟩; exact absurd hve (hnone v hv)
    · intro i name
      simp only [authenticate, hfind]
      constructor
      · intro h; cases h
      · rintro ⟨v, hv, hve, -⟩; exact absurd hve (hnone v hv)
  · have hmem : u ∈ users := List.mem_of_find?_eq_some hfind
    have hemail : u.email = email := by
      have := List.find?_some hfind
      simpa using this
    have honly : ∀ v ∈ users, v.email = email → v = u := by
      intro v hv hve
      exact huniq v hv u hmem (hve.trans hemail.symm)
    rcases hchk : check_password password u.password with _ | _
    · refine ⟨?_, ?_, ?_⟩
      · simp only [authenticate, hfind, hchk, Bool.false_eq_true, if_false]
        constructor
        · intro h; cases h
        · intro h; exact absurd hemail (h u hmem)
      · simp only [authenticate, hfind, hchk, Bool.false_eq_true, if_false]
        exact ⟨fun _ => ⟨u, hmem, hemail, hchk⟩, fun _ => trivial⟩
      · intro i name
        simp only [authenticate, hfind, hchk, Bool.false_eq_true, if_false]
        constructor
        · intro h; cases h
        · rintro ⟨v, hv, hve, hc, -⟩
          rw [honly v hv hve] at hc
          rw [hchk] at hc
          cases hc
    · refine ⟨?_, ?_, ?_⟩
      · simp only [authenticate, hfind, hchk, if_true]
        constructor
        · intro h; cases h
        · intro h; exact absurd hemail (h u hmem)
      · simp only [authenticate, hfind, hchk, if_true]
        constructor
        · intro h; cases h
        · rintro ⟨v, hv, hve, hc⟩
          rw [honly v hv hve] at hc
          rw [hchk] at hc
          cases hc
      · intro i name
        simp only [authenticate, hfind, hchk, if_true]
        constructor
        · intro h
          cases h
          exact ⟨u, hmem, hemail, hchk, rfl, rfl⟩
        · rintro ⟨v, hv, hve, hc, hid, hname⟩
          rw [honly v hv hve] at hid hname
          rw [← hid, ← hname]

/-- Witness for C8: a one-user table, checked with the right and the wrong
password and with an unknown email. -/
theorem C8_authenticate_trichotomy_witness :
    (authenticate [sampleUser] "ghost@x.com" "Aa1!xx" = .noAccount ↔
      ∀ u ∈ [sampleUser], u.email ≠ "ghost@x.com") ∧
    (authenticate [sampleUser] "a@x.com" "wrong" = .wrongPassword ↔
      ∃ u ∈ [sampleUser], u.email = "a@x.com" ∧
        check_password "wrong" u.password = false) ∧
    (authenticate [sampleUser] "a@x.com" "Aa1!xx" = .success 1 "alice" ↔
      ∃ u ∈ [sampleUser], u.email = "a@x.com" ∧
        check_password "Aa1!xx" u.password = true ∧ u.id = 1 ∧
        u.username = "alice") :=
  ⟨(C8_authenticate_trichotomy [sampleUser] "ghost@x.com" "Aa1!xx" (by decide)).1,
   (C8_authenticate_trichotomy [sampleUser] "a@x.com" "wrong" (by decide)).2.1,
   (C8_authenticate_trichotomy [sampleUser] "a@x.com" "Aa1!xx" (by decide)).2.2 1 "alice"⟩

/-- C9: in the new-password step, a submission that matches its confirmation
and meets the strength policy, for a session email that has an account,
commits: the outcome is `committed`, every user row with the flow's email
holds a fresh hash of the new password (and such a row exists), the
password-reset record for that email is deleted, and the session returns to
login with the flow keys popped. -/
theorem C9_commit_success :
    ∀ (db : DB) (sess : Session) (new_pw confirm_pw : String) (salt : Nat) (e : String),
      sess.reset_email = some e →
      (∃ u ∈ db.users, u.email = e) →
      new_pw ≠ "" → confirm_pw ≠ "" →
      ¬ new_pw.length < 6 →
      new_pw.data.any Char.isUpper = true →
      new_pw.data.any Char.isLower = true →
      new_pw.data.any Char.isDigit = true →
      new_pw.data.any (fun c => c ∈ symbolChars) = true →
      new_pw = confirm_pw →
      ∃ db' : DB,
        reset_commit db sess new_pw confirm_pw salt
          = (db', ⟨"login", .email, none, 0⟩, .committed) ∧
        (∀ u ∈ db'.users, u.email = e → u.password = hashpw new_pw salt) ∧
        (∃ u ∈ db'.users, u.email = e ∧ u.password = hashpw new_pw salt) ∧
        db'.password_reset.countP (fun rr => rr.email == e) = 0 := by
  intro db sess new_pw confirm_pw salt e hsess hexists h1 h2 h3 h4 h5 h6 h7 h8
  obtain ⟨u0, hu0, hu0e⟩ := hexists
  have hupd : db.users.any (fun u => sqlEq (some e) u.email) = true := by
    refine List.any_eq_true.mpr ⟨u0, hu0, ?_⟩
    simp [sqlEq, hu0e]
  refine ⟨⟨(update_password db.users (some e) new_pw salt).1,
           clear_password_reset db.password_reset (some e)⟩, ?_, ?_, ?_, ?_⟩
  · simp only [reset_commit, if_neg (not_or.mpr ⟨h1, h2⟩), if_neg h3,
      if_neg (not_not_intro h4), if_neg (not_not_intro h5), if_neg (not_not_intro h6),
      if_neg (not_not_intro h7), if_neg (fun h : new_pw ≠ confirm_pw => h h8), hsess]
    simp only [update_password, hupd, if_true]
  · intro u hu hue
    simp only [update_password] at hu
    obtain ⟨v, hv, hvu⟩ := List.mem_map.mp hu
    by_cases hcase : sqlEq (some e) v.email = true
    · rw [if_pos hcase] at hvu
      rw [← hvu]
    · rw [if_neg (by simpa using hcase)] at hvu
      exfalso
      apply hcase
      rw [hvu]
      simp [sqlEq, hue]
  · refine ⟨{ u0 with password := hashpw new_pw salt }, ?_, hu0e, rfl⟩
    simp only [update_password]
    refine List.mem_map.mpr ⟨u0, hu0, ?_⟩
    rw [if_pos (by simp [sqlEq, hu0e])]
  · rw [List.countP_eq_zero]
    intro rr hrr
    simp only [clear_password_reset, List.mem_filter] at hrr
    obtain ⟨-, hne⟩ := hrr
    simp only [sqlEq, Bool.not_eq_eq_eq_not, Bool.not_true, beq_eq_false_iff_ne] at hne
    simp [beq_eq_false_iff_ne, Ne.symm hne]

/-- Witness for C9: a concrete commit of "NewAbc1!" for the sample user. -/
theorem C9_commit_success_witness :
    ∃ db' : DB,
      reset_commit sampleDB ⟨"reset", .new_password, some "a@x.com", 1030⟩
          "NewAbc1!" "NewAbc1!" 7
        = (db', ⟨"login", .email, none, 0⟩, .committed) ∧
      (∀ u ∈ db'.users, u.email = "a@x.com" → u.password = hashpw "NewAbc1!" 7) ∧
      (∃ u ∈ db'.users, u.email = "a@x.com" ∧ u.password = hashpw "NewAbc1!" 7) ∧
      db'.password_reset.countP (fun rr => rr.email == "a@x.com") = 0 :=
  C9_commit_success sampleDB ⟨"reset", .new_password, some "a@x.com", 1030⟩
    "NewAbc1!" "NewAbc1!" 7 "a@x.com" rfl ⟨sampleUser, by decide, rfl⟩
    (by decide) (by decide) (by decide) (by decide) (by decide) (by decide)
    (by decide) rfl

/-- C10: in the new-password step, when `update_password` reports failure
(no user row matched the session email), the flow reports `updateFailed`,
the session is unchanged, and the password-reset table — in particular the
record for that email — is untouched (`clear_password_reset` is never
reached). -/
theorem C10_no_clear_on_failed_update :
    ∀ (db : DB) (sess : Session) (new_pw confirm_pw : String) (salt : Nat),
      new_pw ≠ "" → confirm_pw ≠ "" →
      ¬ new_pw.length < 6 →
      new_pw.data.any Char.isUpper = true →
      new_pw.data.any Char.isLower = true →
      new_pw.data.any Char.isDigit = true →
      new_pw.data.any (fun c => c ∈ symbolChars) = true →
      new_pw = confirm_pw →
      (update_password db.users sess.reset_email new_pw salt).2 = false →
      reset_commit db sess new_pw confirm_pw salt
        = ({ db with users := (update_password db.users sess.reset_email new_pw salt).1 },
           sess, .updateFailed) ∧
      (reset_commit db sess new_pw confirm_pw salt).1.password_reset
        = db.password_reset := by
  intro db sess new_pw confirm_pw salt h1 h2 h3 h4 h5 h6 h7 h8 hfail
  have heq : reset_commit db sess new_pw confirm_pw salt
      = ({ db with users := (update_password db.users sess.reset_email new_pw salt).1 },
         sess, .updateFailed) := by
    simp only [reset_commit, if_neg (not_or.mpr ⟨h1, h2⟩), if_neg h3,
      if_neg (not_not_intro h4), if_neg (not_not_intro h5), if_neg (not_not_intro h6),
      if_neg (not_not_intro h7), if_neg (fun h : new_pw ≠ confirm_pw => h h8)]
    simp only [update_password] at hfail ⊢
    simp only [hfail, Bool.false_eq_true, if_false]
  exact ⟨heq, by rw [heq]⟩

/-- Witness for C10: committing for a session email that has no account. -/
theorem C10_no_clear_on_failed_update_witness :
    reset_commit sampleDB ⟨"reset", .new_password, some "ghost@x.com", 1030⟩
        "NewAbc1!" "NewAbc1!" 7
      = ({ sampleDB with users := (update_password sampleDB.users
            (some "ghost@x.com") "NewAbc1!" 7).1 },
         ⟨"reset", .new_password, some "ghost@x.com", 1030⟩, .updateFailed) ∧
    (reset_commit sampleDB ⟨"reset", .new_password, some "ghost@x.com", 1030⟩
        "NewAbc1!" "NewAbc1!" 7).1.password_reset = sampleDB.password_reset :=
  C10_no_clear_on_failed_update sampleDB
    ⟨"reset", .new_password, some "ghost@x.com", 1030⟩ "NewAbc1!" "NewAbc1!" 7
    (by decide) (by decide) (by decide) (by decide) (by decide) (by decide)
    (by decide) rfl (by decide)

/-- C1: `current_streak` is 0 for a user with no login events; 1 when the
user's login dates are a single day; N when they are N consecutive days with
no gap; and in general, when the dates have a trailing consecutive run of
length k ending at the most recent login date with a gap just below it, the
streak is k — the length of the trailing run, whatever lies below the
gap. -/
theorem C1_current_streak :
    (∀ (table : List LoginEvent) (u : Nat),
       (∀ r ∈ table, r.user_id ≠ u) → current_streak table u = 0) ∧
    (∀ (table : List LoginEvent) (u : Nat) (d : Int),
       user_login_dates table u = {d} → current_streak table u = 1) ∧
    (∀ (table : List LoginEvent) (u : Nat) (a : Int) (N : Nat), 1 ≤ N →
       user_login_dates table u = Finset.Icc a (a + N - 1) →
       current_streak table u = N) ∧
    (∀ (table : List LoginEvent) (u : Nat) (m : Int) (k : Nat)
       (h : (user_login_dates table u).Nonempty),
       (user_login_dates table u).max' h = m →
       (∀ i : Nat, i < k → m - i ∈ user_login_dates table u) →
       m - k ∉ user_login_dates table u →
       current_streak table u = k) := by
  refine ⟨?_, ?_, ?_, ?_⟩
  · intro table u hnone
    have hfil : table.filter (fun r => r.user_id == u) = [] := by
      rw [List.filter_eq_nil_iff]
      intro r hr
      simpa using hnone r hr
    have hempty : user_login_dates table u = ∅ := by
      simp [user_login_dates, hfil]
    simp [current_streak, hempty, get_current_streak]
  · intro table u d hset
    have h : (user_login_dates table u).Nonempty := by
      rw [hset]
      exact ⟨d, Finset.mem_singleton_self d⟩
    refine get_current_streak_run h (m := d) (k := 1) ?_ ?_ ?_
    · apply le_antisymm
      · apply Finset.max'_le
        intro y hy
        rw [hset, Finset.mem_singleton] at hy
        omega
      · apply Finset.le_max'
        rw [hset]
        exact Finset.mem_singleton_self d
    · intro i hi
      have : i = 0 := by omega
      subst this
      rw [hset]
      simp
    · rw [hset]
      simp only [Finset.mem_singleton]
      omega
  · intro table u a N hN hset
    have hmem : a + N - 1 ∈ Finset.Icc a (a + (N : Int) - 1) := by
      rw [Finset.mem_Icc]
      omega
    have h : (user_login_dates table u).Nonempty := by
      rw [hset]
      exact ⟨a + N - 1, hmem⟩
    refine get_current_streak_run h (m := a + N - 1) (k := N) ?_ ?_ ?_
    · apply le_antisymm
      · apply Finset.max'_le
        intro y hy
        rw [hset, Finset.mem_Icc] at hy
        omega
      · apply Finset.le_max'
        rw [hset]
        exact hmem
    · intro i hi
      rw [hset, Finset.mem_Icc]
      omega
    · rw [hset, Finset.mem_Icc]
      omega
  · intro table u m k h hm hin hout
    exact get_current_streak_run h hm hin hout

/-- Witness for C1: the P6 example — logins on days 1,2,3,5,6,7,8 give
streak 4 (counting 5,6,7,8); plus the empty, single-day and gap-free
cases. -/
theorem C1_current_streak_witness :
    current_streak sampleLogins 1 = 4 ∧
    current_streak sampleLogins 3 = 0 ∧
    current_streak sampleLogins 2 = 1 ∧
    current_streak [⟨7, 10⟩, ⟨7, 11⟩, ⟨7, 12⟩] 7 = 3 :=
  ⟨C1_current_streak.2.2.2 sampleLogins 1 8 4 (by decide) (by decide)
     (by decide) (by decide),
   C1_current_streak.1 sampleLogins 3 (by decide),
   C1_current_streak.2.1 sampleLogins 2 100 (by decide),
   C1_current_streak.2.2.1 [⟨7, 10⟩, ⟨7, 11⟩, ⟨7, 12⟩] 7 10 3 (by decide)
     (by decide)⟩

end CodeVerse
